import Mathlib

/-!
Shallow embedding of the session-scheduling and reminder-dispatch logic of
`src/app.py` (Flask study planner), together with proofs of the frozen
claims about it.

Modelling conventions:
* A row of the `sessions` table is the structure `Sess`.  `completed` and
  `reminder_sent` are stored as the SQL INTEGERs they are in the schema
  (`Int`), with 0 meaning false and 1 meaning true.
* The store is a `List Sess`; SQL `UPDATE`/`DELETE`/`SELECT` become
  `List.map`/`List.filter`.  Primary-key uniqueness is a `Nodup`
  hypothesis on `store.map Sess.id` where a theorem needs it.
* The sqlite AUTOINCREMENT / postgres SERIAL id generator never reuses an
  id; this is modelled by the `DB` structure carrying `nextId`, the value
  of the id sequence.
* Wall-clock datetimes: `datetime.now()` is injected as the structure
  `Now`, holding `now.date().isoformat()` (a string, as compared by the
  SQL query) and the microseconds elapsed since local midnight.  Every
  instant a sweep compares against `now` lies on the same calendar date
  (the candidate query pins `session_date` to `now.date().isoformat()`),
  so the `datetime` comparison reduces to comparing microseconds-of-day;
  `strptimeDT` therefore returns the parsed time of day in microseconds.
* `datetime.strptime(f"{d} {t}", "%Y-%m-%d %H:%M")` is modelled by parsing
  the two components separately (`parseDate`, `parseTime`); the combined
  regex has a single mandatory literal space which no other token can
  consume, so the combined parse succeeds exactly when both components
  parse.  Digits are modelled as ASCII digits.
* The network call of `urllib.request.urlopen` is an injected oracle
  `net : String → Except String Unit`; `Except.error` is a raised network
  exception.  Python exceptions in general are `Except.error`; a function
  that cannot raise is proved to always return `Except.ok`.
* The observable dispatch behaviour is the list of HTTP send attempts;
  inside the sweep each attempt is tagged with the id of the row that
  triggered it, so that notifications can be counted per session.
-/

/-- A row of the `sessions` table. -/
structure Sess where
  id : Nat
  userId : Nat
  subjectId : Option Int
  title : String
  sessionDate : String
  sessionTime : String
  durationMin : Int
  priority : String
  notes : String
  completed : Int
  reminderSent : Int
deriving DecidableEq

/-- Database state: the `sessions` table plus the id sequence
(AUTOINCREMENT/SERIAL never reuses an id). -/
structure DB where
  sessions : List Sess
  nextId : Nat
deriving DecidableEq

/-- The two environment settings read by the app:
`TELEGRAM_BOT_TOKEN` and `TELEGRAM_CHAT_ID` (`os.getenv`, so `none` when
the variable is unset). -/
structure TelegramEnv where
  botToken : Option String
  chatId : Option String
deriving DecidableEq

/-- Python truthiness of an optional string: `None` and `""` are falsy. -/
def pyTruthy : Option String → Bool
  | none => false
  | some s => !s.isEmpty

/-- `if not TELEGRAM_BOT_TOKEN or not TELEGRAM_CHAT_ID` - the notification
channel is configured when both settings are truthy. -/
def telegramConfigured (env : TelegramEnv) : Bool :=
  pyTruthy env.botToken && pyTruthy env.chatId

/-- `REMINDER_MINUTES = 30` (src/app.py line 30). -/
def REMINDER_MINUTES : Nat := 30

/-- Microseconds in a minute (datetime resolution is microseconds). -/
def usPerMinute : Nat := 60000000

/-- `timedelta(minutes=REMINDER_MINUTES)` in microseconds. -/
def reminderWindowUs : Nat := REMINDER_MINUTES * usPerMinute

/-- The injected current instant: `now.date().isoformat()` as the string
the SQL query compares against, and the time of day in microseconds. -/
structure Now where
  dateStr : String
  usOfDay : Nat
deriving DecidableEq

/-- Value of an ASCII digit character. -/
def digitVal (c : Char) : Option Nat :=
  if c.isDigit then some (c.toNat - 48) else none

/-- Minutes component of `%H:%M` followed by end of input: the strptime
regex alternation `[0-5]\d|\d`. -/
def parseMinTail : List Char → Option Nat
  | [c] => digitVal c
  | [c1, c2] =>
    match digitVal c1, digitVal c2 with
    | some a, some b => if a ≤ 5 then some (a * 10 + b) else none
    | _, _ => none
  | _ => none

/-- `%H:%M` over the whole input: hour alternation `2[0-3]|[0-1]\d|\d`,
then a literal colon, then `parseMinTail`.  The two hour widths are
distinguished by the position of the colon, so no backtracking is needed.
Returns minutes since midnight. -/
def parseHM : List Char → Option Nat
  | c1 :: c2 :: ':' :: rest =>
    (match digitVal c1, digitVal c2 with
     | some a, some b =>
       if a * 10 + b ≤ 23 then
         (parseMinTail rest).map (fun m => (a * 10 + b) * 60 + m)
       else none
     | _, _ => none)
  | c1 :: ':' :: rest =>
    (match digitVal c1 with
     | some h => (parseMinTail rest).map (fun m => h * 60 + m)
     | none => none)
  | _ => none

/-- `datetime.strptime(s, "%H:%M")`, as minutes since midnight. -/
def parseTime (s : String) : Option Nat :=
  parseHM s.toList

/-- Day component of `%Y-%m-%d` followed by end of input: the strptime
alternation `3[01]|[12]\d|0[1-9]|[1-9]`, i.e. one digit 1-9 or two digits
01-31. -/
def parseDayTail : List Char → Option Nat
  | [c] =>
    (match digitVal c with
     | some v => if 1 ≤ v then some v else none
     | none => none)
  | [c1, c2] =>
    (match digitVal c1, digitVal c2 with
     | some a, some b =>
       if 1 ≤ a * 10 + b ∧ a * 10 + b ≤ 31 then some (a * 10 + b) else none
     | _, _ => none)
  | _ => none

/-- Month-then-day tail of `%Y-%m-%d`: month alternation
`1[0-2]|0[1-9]|[1-9]`, a literal dash, then `parseDayTail`. -/
def parseMD : List Char → Option (Nat × Nat)
  | c1 :: c2 :: '-' :: rest =>
    (match digitVal c1, digitVal c2 with
     | some a, some b =>
       if 1 ≤ a * 10 + b ∧ a * 10 + b ≤ 12 then
         (parseDayTail rest).map (fun d => (a * 10 + b, d))
       else none
     | _, _ => none)
  | c1 :: '-' :: rest =>
    (match digitVal c1 with
     | some m => if 1 ≤ m then (parseDayTail rest).map (fun d => (m, d)) else none
     | none => none)
  | _ => none

/-- Gregorian leap year, as `calendar.isleap`/`datetime` use it. -/
def isLeap (y : Nat) : Bool :=
  (y % 4 == 0 && y % 100 != 0) || y % 400 == 0

/-- Length of a month, used by the `datetime` constructor validation. -/
def daysInMonth (y m : Nat) : Nat :=
  if m = 2 then (if isLeap y then 29 else 28)
  else if m = 4 ∨ m = 6 ∨ m = 9 ∨ m = 11 then 30
  else 31

/-- `datetime.strptime(s, "%Y-%m-%d")`: exactly four year digits, a dash,
`parseMD`, then the `datetime` constructor's validation (year ≥ 1, day
within the month). -/
def parseDate (s : String) : Option (Nat × Nat × Nat) :=
  match s.toList with
  | y1 :: y2 :: y3 :: y4 :: '-' :: rest =>
    (match digitVal y1, digitVal y2, digitVal y3, digitVal y4 with
     | some a, some b, some c, some d =>
       let y := ((a * 10 + b) * 10 + c) * 10 + d
       if 1 ≤ y then
         match parseMD rest with
         | some (m, dd) => if dd ≤ daysInMonth y m then some (y, m, dd) else none
         | none => none
       else none
     | _, _, _, _ => none)
  | _ => none

/-- `datetime.strptime(f"{dateStr} {timeStr}", "%Y-%m-%d %H:%M")`.
Returns the parsed time of day in microseconds (`%H:%M` leaves seconds and
microseconds at 0).  The date value itself is not returned: every caller
compares the result against an instant of the same calendar date, so only
parse success of the date matters (see module docstring). -/
def strptimeDT (dateStr timeStr : String) : Option Nat :=
  match parseDate dateStr, parseTime timeStr with
  | some _, some t => some (t * usPerMinute)
  | _, _ => none

/-- `send_telegram_message` (src/app.py lines 831-845): returns
immediately when the channel is unconfigured; otherwise performs the
network call and swallows any exception (`except Exception: pass`).  The
payload is the list of HTTP attempts actually made (instrumentation; the
Python function returns `None`).  An `Except.error` result would be a
propagated Python exception. -/
def send_telegram_message (env : TelegramEnv) (net : String → Except String Unit)
    (text : String) : Except String (List String) :=
  if telegramConfigured env then
    match net text with
    | Except.ok _ => Except.ok [text]
    | Except.error _ => Except.ok [text]
  else Except.ok []

/-- Reminder text sent for a due row (f-string in src/app.py lines
879-883). -/
def reminderText (row : Sess) : String :=
  "Напоминание: скоро занятие\n" ++ row.title ++ " в " ++ row.sessionTime ++
    " (" ++ toString row.durationMin ++ " мин)"

/-- The candidate query of the sweep (src/app.py lines 856-867):
sessions of the user, scheduled on `today`, not completed, reminder not
yet sent. -/
def dueCandidates (userId : Nat) (today : String) (store : List Sess) : List Sess :=
  store.filter (fun s =>
    s.userId == userId && s.sessionDate == today &&
      s.completed == 0 && s.reminderSent == 0)

/-- The per-row loop of `send_due_reminders` (src/app.py lines 869-884):
skip rows whose stored date+time does not parse (`except ValueError:
continue`); for rows inside the window send the reminder and collect the
id.  Returns the tagged send attempts and `to_mark`. -/
def sweepRows (env : TelegramEnv) (net : String → Except String Unit) (now : Now) :
    List Sess → Except String (List (Nat × String) × List Nat)
  | [] => Except.ok ([], [])
  | row :: rest =>
    match strptimeDT row.sessionDate row.sessionTime with
    | none => sweepRows env net now rest
    | some tUs =>
      if now.usOfDay ≤ tUs ∧ tUs ≤ now.usOfDay + reminderWindowUs then
        match send_telegram_message env net (reminderText row) with
        | Except.error e => Except.error e
        | Except.ok att =>
          match sweepRows env net now rest with
          | Except.error e => Except.error e
          | Except.ok (sent, ids) =>
            Except.ok (att.map (fun m => (row.id, m)) ++ sent, row.id :: ids)
      else sweepRows env net now rest

/-- `execute_many("UPDATE sessions SET reminder_sent = 1 WHERE id = ?", ...)`
(src/app.py lines 886-890): one batched update setting the flag on every
row whose id is listed (the statement has no user filter). -/
def execute_many_mark_sent (ids : List Nat) (store : List Sess) : List Sess :=
  store.map (fun s =>
    if ids.contains s.id then { s with reminderSent := 1 } else s)

/-- Result of a sweep: the updated `sessions` table and the tagged send
attempts. -/
structure SweepOut where
  store : List Sess
  sent : List (Nat × String)
deriving DecidableEq

/-- `send_due_reminders` (src/app.py lines 848-890). -/
def send_due_reminders (env : TelegramEnv) (net : String → Except String Unit)
    (userId : Nat) (now : Now) (store : List Sess) : Except String SweepOut :=
  if telegramConfigured env then
    let rows := dueCandidates userId now.dateStr store
    match sweepRows env net now rows with
    | Except.error e => Except.error e
    | Except.ok (sent, toMark) =>
      Except.ok ⟨if toMark.isEmpty then store else execute_many_mark_sent toMark store,
        sent⟩
  else Except.ok ⟨store, []⟩

/-- Specification-side window predicate: the row parses and
`now <= session_dt <= now + lookahead` (dates already agree). -/
def isDue (now : Now) (s : Sess) : Bool :=
  match strptimeDT s.sessionDate s.sessionTime with
  | none => false
  | some t => decide (now.usOfDay ≤ t ∧ t ≤ now.usOfDay + reminderWindowUs)

/-- The due rows of a sweep run: candidates inside the window. -/
def dueRowsOf (userId : Nat) (now : Now) (store : List Sess) : List Sess :=
  (dueCandidates userId now.dateStr store).filter (isDue now)

/-- Ids collected in `to_mark` during a sweep run. -/
def dueIdsOf (userId : Nat) (now : Now) (store : List Sess) : List Nat :=
  (dueRowsOf userId now store).map Sess.id

/-- Tagged send attempts of a sweep run (when the channel is configured). -/
def dueEventsOf (userId : Nat) (now : Now) (store : List Sess) : List (Nat × String) :=
  (dueRowsOf userId now store).map (fun r => (r.id, reminderText r))

/-- Python `int(str)` on a stripped decimal literal (optional sign,
ASCII digits). -/
def digitsValAux : List Char → Nat → Option Nat
  | [], acc => some acc
  | c :: rest, acc =>
    match digitVal c with
    | some d => digitsValAux rest (acc * 10 + d)
    | none => none

/-- Value of a non-empty all-digit character list. -/
def digitsVal : List Char → Option Nat
  | [] => none
  | cs => digitsValAux cs 0

/-- Python `str.strip()` over the character list. -/
def pyStrip (cs : List Char) : List Char :=
  ((cs.dropWhile Char.isWhitespace).reverse.dropWhile Char.isWhitespace).reverse

/-- Python `int(s)` for a string: strip whitespace, optional sign, decimal
digits; `none` models the raised `ValueError`. -/
def pyInt (s : String) : Option Int :=
  match pyStrip s.toList with
  | '-' :: rest => (digitsVal rest).map (fun n => -(n : Int))
  | '+' :: rest => (digitsVal rest).map (fun n => (n : Int))
  | cs => (digitsVal cs).map (fun n => (n : Int))

/-- The stripped form fields read by `create_session` (src/app.py lines
351-357; `priority` already carries its default). -/
structure CreateForm where
  title : String
  subject_id : String
  session_date : String
  session_time : String
  duration_min : String
  priority : String
  notes : String
deriving DecidableEq

/-- Creation notification text (f-string in src/app.py lines 383-388). -/
def createText (title session_date session_time : String) (minutes : Int)
    (priority : String) : String :=
  "Новое занятие: " ++ title ++ "\nКогда: " ++ session_date ++ " " ++ session_time ++
    "\nДлительность: " ++ toString minutes ++ " мин\nПриоритет: " ++ priority

/-- `create_session` (src/app.py lines 347-390): validate the form (empty
required field or unparsable duration redirects without inserting), clamp
the duration with `max(10, ...)`, insert the row with `reminder_sent = 0`
(`completed` takes its column default 0), then dispatch one creation
notification.  Returns the new database state and the send attempts. -/
def create_session (env : TelegramEnv) (net : String → Except String Unit)
    (userId : Nat) (f : CreateForm) (db : DB) : Except String (DB × List String) :=
  if f.title.isEmpty || f.session_date.isEmpty || f.session_time.isEmpty ||
      f.duration_min.isEmpty then
    Except.ok (db, [])
  else
    match pyInt f.duration_min with
    | none => Except.ok (db, [])
    | some v =>
      let minutes : Int := max 10 v
      let subject_value : Option Int :=
        if f.subject_id.isEmpty then none
        else
          match pyInt f.subject_id with
          | some sv => some sv
          | none => none
      let row : Sess :=
        { id := db.nextId, userId := userId, subjectId := subject_value,
          title := f.title, sessionDate := f.session_date,
          sessionTime := f.session_time, durationMin := minutes,
          priority := f.priority, notes := f.notes,
          completed := 0, reminderSent := 0 }
      match send_telegram_message env net
          (createText f.title f.session_date f.session_time minutes f.priority) with
      | Except.error e => Except.error e
      | Except.ok att =>
        Except.ok (⟨db.sessions ++ [row], db.nextId + 1⟩, att)

/-- Effect of the toggle UPDATE on one row: flip `completed` with
`CASE WHEN completed = 1 THEN 0 ELSE 1 END` when the row matches the id
and user, leave it unchanged otherwise. -/
def toggleRow (userId sessionId : Nat) (s : Sess) : Sess :=
  if s.id == sessionId && s.userId == userId then
    { s with completed := if s.completed == 1 then 0 else 1 }
  else s

/-- `toggle_session` (src/app.py lines 393-405). -/
def toggle_session (userId sessionId : Nat) (store : List Sess) : List Sess :=
  store.map (toggleRow userId sessionId)

/-- `delete_session` (src/app.py lines 408-416). -/
def delete_session (userId sessionId : Nat) (store : List Sess) : List Sess :=
  store.filter (fun s => !(s.id == sessionId && s.userId == userId))

/-- One decoded item of an upload, with the Python-side conversions
already applied: for `import_json`, `completed = int(bool(...))`; for
`import_csv`, `completed = int(... or 0)`; `durationMin = int(... or 30)`
in both.  Subject resolution only touches the `subjects` table and is
summarised by the resolved `subjectId`. -/
structure ImportItem where
  title : String
  date : String
  time : String
  durationMin : Int
  priority : String
  notes : String
  completed : Int
  subjectId : Option Int
deriving DecidableEq

/-- `import_json` (src/app.py lines 671-732): insert every decoded item
as a session row; the INSERT omits `reminder_sent`, which defaults to 0.
No duration or emptiness validation is performed. -/
def json_import (userId : Nat) : List ImportItem → DB → DB
  | [], db => db
  | item :: rest, db =>
    json_import userId rest
      ⟨db.sessions ++
        [{ id := db.nextId, userId := userId, subjectId := item.subjectId,
           title := item.title, sessionDate := item.date, sessionTime := item.time,
           durationMin := item.durationMin, priority := item.priority,
           notes := item.notes, completed := item.completed, reminderSent := 0 }],
       db.nextId + 1⟩

/-- `import_csv` (src/app.py lines 735-800): like `import_json`, but rows
with an empty title, date or time are skipped. -/
def csv_import (userId : Nat) : List ImportItem → DB → DB
  | [], db => db
  | r :: rest, db =>
    if r.title.isEmpty || r.date.isEmpty || r.time.isEmpty then
      csv_import userId rest db
    else
      csv_import userId rest
        ⟨db.sessions ++
          [{ id := db.nextId, userId := userId, subjectId := r.subjectId,
             title := r.title, sessionDate := r.date, sessionTime := r.time,
             durationMin := r.durationMin, priority := r.priority,
             notes := r.notes, completed := r.completed, reminderSent := 0 }],
         db.nextId + 1⟩

/-- The session-mutating operations of the app. -/
inductive Op where
  | create (env : TelegramEnv) (net : String → Except String Unit)
      (userId : Nat) (f : CreateForm)
  | toggle (userId sessionId : Nat)
  | delete (userId sessionId : Nat)
  | jsonImport (userId : Nat) (items : List ImportItem)
  | csvImport (userId : Nat) (items : List ImportItem)
  | sweep (env : TelegramEnv) (net : String → Except String Unit)
      (userId : Nat) (now : Now)

/-- Effect of one operation on the database state. -/
def applyOp (op : Op) (db : DB) : Except String DB :=
  match op with
  | Op.create env net uid f =>
    match create_session env net uid f db with
    | Except.error e => Except.error e
    | Except.ok (db', _) => Except.ok db'
  | Op.toggle uid sid => Except.ok ⟨toggle_session uid sid db.sessions, db.nextId⟩
  | Op.delete uid sid => Except.ok ⟨delete_session uid sid db.sessions, db.nextId⟩
  | Op.jsonImport uid items => Except.ok (json_import uid items db)
  | Op.csvImport uid items => Except.ok (csv_import uid items db)
  | Op.sweep env net uid now =>
    match send_due_reminders env net uid now db.sessions with
    | Except.error e => Except.error e
    | Except.ok out => Except.ok ⟨out.store, db.nextId⟩

/-- Run a sequence of operations. -/
def runOps : List Op → DB → Except String DB
  | [], db => Except.ok db
  | op :: rest, db =>
    match applyOp op db with
    | Except.error e => Except.error e
    | Except.ok db' => runOps rest db'

/-- Well-formed database: primary keys are distinct and below the id
sequence value. -/
def dbWF (db : DB) : Prop :=
  (db.sessions.map Sess.id).Nodup ∧ ∀ s ∈ db.sessions, s.id < db.nextId

/-- The row inserted by a successful `create_session` (duration clamped by
`max(10, ...)`, `reminder_sent` explicitly 0, `completed` at its column
default 0). -/
def createdRow (userId : Nat) (f : CreateForm) (id : Nat) (v : Int) : Sess :=
  { id := id, userId := userId,
    subjectId :=
      (if f.subject_id.isEmpty then none
       else
         match pyInt f.subject_id with
         | some sv => some sv
         | none => none),
    title := f.title, sessionDate := f.session_date,
    sessionTime := f.session_time, durationMin := max 10 v,
    priority := f.priority, notes := f.notes,
    completed := 0, reminderSent := 0 }

/-! ### Concrete instances used by the witness theorems -/

/-- A network oracle whose calls all succeed. -/
def netOk : String → Except String Unit := fun _ => Except.ok ()

/-- A network oracle whose calls all fail (timeout). -/
def netFail : String → Except String Unit := fun _ => Except.error "timeout"

/-- A fully configured notification channel. -/
def envOn : TelegramEnv := ⟨some "token", some "chat"⟩

/-- A channel with the bot token absent. -/
def envOff : TelegramEnv := ⟨none, some "chat"⟩

/-- A session of user 1 scheduled today at 12:00. -/
def sessNoon : Sess :=
  ⟨1, 1, none, "Алгебра", "2026-10-12", "12:00", 45, "Высокий", "", 0, 0⟩

/-- A candidate session whose stored time is malformed. -/
def sessBadTime : Sess :=
  ⟨2, 1, none, "Физика", "2026-10-12", "25:00", 30, "Средний", "", 0, 0⟩

/-- A completed session scheduled today. -/
def sessDone : Sess :=
  ⟨3, 1, none, "Химия", "2026-10-12", "10:00", 30, "Средний", "", 1, 0⟩

/-- A session whose reminder flag is already set. -/
def sessFlagged : Sess :=
  ⟨4, 1, none, "История", "2026-10-12", "09:00", 30, "Низкий", "", 0, 1⟩

/-- The injected clock at 11:31 of the same day (29 minutes before noon). -/
def now1131 : Now := ⟨"2026-10-12", (11 * 60 + 31) * usPerMinute⟩

/-- The injected clock at 11:29 of the same day (31 minutes before noon). -/
def now1129 : Now := ⟨"2026-10-12", (11 * 60 + 29) * usPerMinute⟩

/-- Sweep outcome at 11:31 on the single-session store: marked and
notified. -/
def out1131 : SweepOut :=
  ⟨[{ sessNoon with reminderSent := 1 }], [(1, reminderText sessNoon)]⟩

/-- Sweep outcome at 11:29 on the single-session store: untouched. -/
def out1129 : SweepOut := ⟨[sessNoon], []⟩

/-- Outcome of a second 11:31 sweep right after the first: the marked row
is no longer a candidate, so nothing is sent. -/
def out1131b : SweepOut := ⟨[{ sessNoon with reminderSent := 1 }], []⟩

/-- A form submission with duration below the minimum. -/
def formW : CreateForm := ⟨"Чтение", "", "2026-10-12", "18:00", "5", "Средний", ""⟩

/-- An upload item with duration below 10. -/
def itemSmall : ImportItem :=
  ⟨"Грамматика", "2026-10-13", "09:30", 5, "Средний", "", 0, none⟩

/-! ### Basic lemmas about the dispatch function and the sweep -/

/-- The dispatch function never raises: it returns the list of attempts,
`[text]` when the channel is configured and `[]` otherwise, for every
outcome of the network call. -/
theorem send_telegram_message_eq (env : TelegramEnv)
    (net : String → Except String Unit) (text : String) :
    send_telegram_message env net text =
      Except.ok (if telegramConfigured env then [text] else []) := by
  unfold send_telegram_message
  by_cases hc : telegramConfigured env = true
  · rw [if_pos hc, if_pos hc]
    cases net text <;> rfl
  · rw [if_neg hc, if_neg hc]

/-- The row loop never raises and computes exactly the due rows' tagged
attempts and ids. -/
theorem sweepRows_eq (env : TelegramEnv) (net : String → Except String Unit)
    (now : Now) (rows : List Sess) :
    sweepRows env net now rows =
      Except.ok
        ((if telegramConfigured env then
            (rows.filter (isDue now)).map (fun r => (r.id, reminderText r))
          else []),
         (rows.filter (isDue now)).map Sess.id) := by
  induction rows with
  | nil => simp [sweepRows]
  | cons row rest ih =>
    cases hp : strptimeDT row.sessionDate row.sessionTime with
    | none =>
      have hdue : isDue now row = false := by simp [isDue, hp]
      simp only [sweepRows, hp, ih, List.filter_cons, hdue]
      simp
    | some t =>
      by_cases hw : now.usOfDay ≤ t ∧ t ≤ now.usOfDay + reminderWindowUs
      · have hdue : isDue now row = true := by simp [isDue, hp, hw.1, hw.2]
        simp only [sweepRows, hp, if_pos hw, send_telegram_message_eq, ih,
          List.filter_cons, hdue]
        by_cases hc : telegramConfigured env = true <;>
          simp [hc]
      · have hdue : isDue now row = false := by
          simp only [isDue, hp, decide_eq_false_iff_not]
          exact hw
        simp only [sweepRows, hp, if_neg hw, ih, List.filter_cons, hdue]
        simp

/-- A batched update with no ids is the identity. -/
theorem mark_sent_nil (store : List Sess) :
    execute_many_mark_sent [] store = store := by
  unfold execute_many_mark_sent
  simp

/-- Closed form of the sweep: it never raises; when unconfigured it is a
no-op, otherwise it marks exactly the due ids and attempts exactly the
due rows' reminders. -/
theorem sweep_eq (env : TelegramEnv) (net : String → Except String Unit)
    (uid : Nat) (now : Now) (store : List Sess) :
    send_due_reminders env net uid now store =
      Except.ok
        (if telegramConfigured env then
          ⟨execute_many_mark_sent (dueIdsOf uid now store) store,
            dueEventsOf uid now store⟩
        else ⟨store, []⟩) := by
  unfold send_due_reminders
  by_cases hc : telegramConfigured env = true
  · rw [if_pos hc, if_pos hc]
    simp only [sweepRows_eq, if_pos hc]
    have hrows : (dueCandidates uid now.dateStr store).filter (isDue now) =
        dueRowsOf uid now store := rfl
    rw [hrows]
    by_cases he : (dueRowsOf uid now store).map Sess.id = []
    · have : dueIdsOf uid now store = [] := he
      simp [dueIdsOf, dueEventsOf, he, this, mark_sent_nil]
    · have hne : ((dueRowsOf uid now store).map Sess.id).isEmpty = false := by
        simp [List.isEmpty_iff, he]
      simp [dueIdsOf, dueEventsOf, hne]
  · rw [if_neg hc, if_neg hc]

/-- Distinct primary keys identify rows. -/
theorem nodup_id_unique {store : List Sess}
    (hn : (store.map Sess.id).Nodup) {s r : Sess}
    (hs : s ∈ store) (hr : r ∈ store) (hid : s.id = r.id) : s = r := by
  induction store with
  | nil => cases hs
  | cons a l ih =>
    simp only [List.map_cons, List.nodup_cons] at hn
    rcases List.mem_cons.mp hs with rfl | hs'
    · rcases List.mem_cons.mp hr with rfl | hr'
      · rfl
      · exact absurd (hid ▸ List.mem_map_of_mem Sess.id hr') hn.1
    · rcases List.mem_cons.mp hr with rfl | hr'
      · exact absurd (hid ▸ List.mem_map_of_mem Sess.id hs') hn.1
      · exact ih hn.2 hs' hr'

/-- Membership in the due rows of a run. -/
theorem mem_dueRows_iff (uid : Nat) (now : Now) (store : List Sess) (s : Sess) :
    s ∈ dueRowsOf uid now store ↔
      s ∈ store ∧ s.userId = uid ∧ s.sessionDate = now.dateStr ∧
        s.completed = 0 ∧ s.reminderSent = 0 ∧ isDue now s = true := by
  simp only [dueRowsOf, dueCandidates, List.mem_filter, Bool.and_eq_true,
    beq_iff_eq]
  tauto

/-- With distinct primary keys, an id is collected in `to_mark` exactly
when its row is a due candidate. -/
theorem mem_dueIds_iff {store : List Sess}
    (hn : (store.map Sess.id).Nodup) {s : Sess} (hs : s ∈ store)
    (uid : Nat) (now : Now) :
    s.id ∈ dueIdsOf uid now store ↔
      s.userId = uid ∧ s.sessionDate = now.dateStr ∧
        s.completed = 0 ∧ s.reminderSent = 0 ∧ isDue now s = true := by
  constructor
  · intro h
    rcases List.mem_map.mp h with ⟨r, hr, hid⟩
    rcases (mem_dueRows_iff uid now store r).mp hr with ⟨hrs, hprops⟩
    have : s = r := nodup_id_unique hn hs hrs hid.symm
    exact this ▸ hprops
  · intro h
    exact List.mem_map_of_mem Sess.id
      ((mem_dueRows_iff uid now store s).mpr ⟨hs, h⟩)

/-- The batched update does not change primary keys. -/
theorem mark_map_id (ids : List Nat) (store : List Sess) :
    (execute_many_mark_sent ids store).map Sess.id = store.map Sess.id := by
  unfold execute_many_mark_sent
  induction store with
  | nil => rfl
  | cons a l ih =>
    simp only [List.map_cons, ih]
    by_cases h : a.id ∈ ids <;> simp [h]

/-- Membership in the batched update's result. -/
theorem mem_mark_iff (store : List Sess) (ids : List Nat) (r : Sess) :
    r ∈ execute_many_mark_sent ids store ↔
      ∃ u ∈ store, (if u.id ∈ ids then { u with reminderSent := 1 } else u) = r := by
  simp [execute_many_mark_sent, List.mem_map]

/-- A row whose id is not in the batch passes through the update
unchanged. -/
theorem unmarked_mem_mark {store : List Sess} {ids : List Nat} {s : Sess}
    (hs : s ∈ store) (hnot : s.id ∉ ids) :
    s ∈ execute_many_mark_sent ids store :=
  (mem_mark_iff store ids s).mpr ⟨s, hs, by rw [if_neg hnot]⟩

/-- With distinct primary keys, the marked copy of a stored row is in the
updated table exactly when its id was batched or the flag was already
set. -/
theorem marked_mem_mark_iff {store : List Sess} (hn : (store.map Sess.id).Nodup)
    {s : Sess} (hs : s ∈ store) (ids : List Nat) :
    { s with reminderSent := 1 } ∈ execute_many_mark_sent ids store ↔
      (s.id ∈ ids ∨ s.reminderSent = 1) := by
  rw [mem_mark_iff]
  constructor
  · rintro ⟨u, hu, heq⟩
    by_cases hc : u.id ∈ ids
    · rw [if_pos hc] at heq
      have hid := congrArg Sess.id heq
      exact Or.inl (nodup_id_unique hn hu hs hid ▸ hc)
    · rw [if_neg hc] at heq
      have hid := congrArg Sess.id heq
      have hus : u = s := nodup_id_unique hn hu hs hid
      right
      have hss : s = { s with reminderSent := 1 } := hus ▸ heq
      exact (congrArg Sess.reminderSent hss : _)
  · rintro (hc | h1)
    · exact ⟨s, hs, by rw [if_pos hc]⟩
    · refine ⟨s, hs, ?_⟩
      have heta : ({ s with reminderSent := 1 } : Sess) = s := by
        cases s
        simp_all
      by_cases hc : s.id ∈ ids
      · rw [if_pos hc]
      · rw [if_neg hc]
        exact heta.symm

/-- `to_mark` has no duplicate ids when the table has none. -/
theorem dueIds_nodup {store : List Sess} (hn : (store.map Sess.id).Nodup)
    (uid : Nat) (now : Now) : (dueIdsOf uid now store).Nodup := by
  have hsub : List.Sublist (dueRowsOf uid now store) store :=
    (List.filter_sublist _).trans (List.filter_sublist _)
  exact (hsub.map Sess.id).nodup hn

/-- The tagged attempts of a run carry exactly the ids of `to_mark`. -/
theorem dueEvents_map_fst (uid : Nat) (now : Now) (store : List Sess) :
    (dueEventsOf uid now store).map Prod.fst = dueIdsOf uid now store := by
  simp only [dueEventsOf, dueIdsOf, List.map_map]
  rfl

/-- After a run marks an id, every row holding that id has the flag set. -/
theorem marked_store_flag {store : List Sess} {ids : List Nat} {sid : Nat}
    (hid : sid ∈ ids) :
    ∀ u ∈ execute_many_mark_sent ids store, u.id = sid → u.reminderSent = 1 := by
  intro u hu hus
  rcases (mem_mark_iff store ids u).mp hu with ⟨w, hw, heq⟩
  by_cases hc : w.id ∈ ids
  · rw [if_pos hc] at heq
    subst heq
    rfl
  · rw [if_neg hc] at heq
    subst heq
    exact absurd (hus ▸ hid) hc

/-- A marked id is not collected again by a later run on the updated
table. -/
theorem marked_not_due_again {store : List Sess} {sid : Nat} (uid : Nat)
    (now now' : Now) (hid : sid ∈ dueIdsOf uid now store) :
    sid ∉ dueIdsOf uid now' (execute_many_mark_sent (dueIdsOf uid now store) store) := by
  intro h
  rcases List.mem_map.mp h with ⟨r, hr, hrid⟩
  rcases (mem_dueRows_iff uid now' _ r).mp hr with ⟨hrs, _, _, _, hr0, _⟩
  have := marked_store_flag hid r hrs hrid
  omega

/-- The toggle touches neither the id nor the reminder flag. -/
theorem toggleRow_fields (userId sessionId : Nat) (s : Sess) :
    (toggleRow userId sessionId s).id = s.id ∧
      (toggleRow userId sessionId s).reminderSent = s.reminderSent := by
  unfold toggleRow
  by_cases h : (s.id == sessionId && s.userId == userId) = true <;> simp [h]

/-- Closed form of `create_session`: either a validation redirect that
changes nothing and sends nothing, or the insertion of the clamped row
followed by one dispatch. -/
theorem create_session_cases (env : TelegramEnv) (net : String → Except String Unit)
    (uid : Nat) (f : CreateForm) (db : DB) :
    create_session env net uid f db = Except.ok (db, []) ∨
    ∃ v, pyInt f.duration_min = some v ∧
      create_session env net uid f db = Except.ok
        (⟨db.sessions ++ [createdRow uid f db.nextId v], db.nextId + 1⟩,
         if telegramConfigured env then
           [createText f.title f.session_date f.session_time (max 10 v) f.priority]
         else []) := by
  unfold create_session
  by_cases hval : (f.title.isEmpty || f.session_date.isEmpty ||
      f.session_time.isEmpty || f.duration_min.isEmpty) = true
  · rw [if_pos hval]
    exact Or.inl rfl
  · rw [if_neg hval]
    cases hv : pyInt f.duration_min with
    | none => exact Or.inl rfl
    | some v =>
      right
      refine ⟨v, rfl, ?_⟩
      simp only [send_telegram_message_eq]
      by_cases hconf : telegramConfigured env = true <;> simp [hconf, createdRow]

/-- Sessions after a JSON upload: each is either an old row or a fresh row
with an id at or above the sequence value and the reminder flag clear. -/
theorem json_import_mem (uid : Nat) (items : List ImportItem) :
    ∀ db u, u ∈ (json_import uid items db).sessions →
      u ∈ db.sessions ∨ (db.nextId ≤ u.id ∧ u.reminderSent = 0) := by
  induction items with
  | nil =>
    intro db u hu
    exact Or.inl hu
  | cons item rest ih =>
    intro db u hu
    rcases ih _ u hu with h | h
    · rcases List.mem_append.mp h with h' | h'
      · exact Or.inl h'
      · right
        rw [List.mem_singleton] at h'
        subst h'
        exact ⟨Nat.le_refl _, rfl⟩
    · exact Or.inr ⟨Nat.le_trans (Nat.le_succ _) h.1, h.2⟩

/-- The JSON upload only advances the id sequence. -/
theorem json_import_nextId (uid : Nat) (items : List ImportItem) :
    ∀ db, db.nextId ≤ (json_import uid items db).nextId := by
  induction items with
  | nil => intro db; exact Nat.le_refl _
  | cons item rest ih =>
    intro db
    unfold json_import
    refine Nat.le_trans (Nat.le_succ db.nextId) ?_
    exact ih ⟨_, _⟩

/-- Sessions after a CSV upload: as for JSON (skipped rows insert
nothing). -/
theorem csv_import_mem (uid : Nat) (items : List ImportItem) :
    ∀ db u, u ∈ (csv_import uid items db).sessions →
      u ∈ db.sessions ∨ (db.nextId ≤ u.id ∧ u.reminderSent = 0) := by
  induction items with
  | nil =>
    intro db u hu
    exact Or.inl hu
  | cons item rest ih =>
    intro db u hu
    unfold csv_import at hu
    by_cases hskip : (item.title.isEmpty || item.date.isEmpty ||
        item.time.isEmpty) = true
    · rw [if_pos hskip] at hu
      exact ih db u hu
    · rw [if_neg hskip] at hu
      rcases ih _ u hu with h | h
      · rcases List.mem_append.mp h with h' | h'
        · exact Or.inl h'
        · right
          rw [List.mem_singleton] at h'
          subst h'
          exact ⟨Nat.le_refl _, rfl⟩
      · exact Or.inr ⟨Nat.le_trans (Nat.le_succ _) h.1, h.2⟩

/-- The CSV upload only advances the id sequence. -/
theorem csv_import_nextId (uid : Nat) (items : List ImportItem) :
    ∀ db, db.nextId ≤ (csv_import uid items db).nextId := by
  induction items with
  | nil => intro db; exact Nat.le_refl _
  | cons item rest ih =>
    intro db
    unfold csv_import
    by_cases hskip : (item.title.isEmpty || item.date.isEmpty ||
        item.time.isEmpty) = true
    · rw [if_pos hskip]
      exact ih db
    · rw [if_neg hskip]
      refine Nat.le_trans (Nat.le_succ db.nextId) ?_
      exact ih ⟨_, _⟩

/-- No operation ever rewinds the id sequence. -/
theorem applyOp_nextId (op : Op) (db db' : DB)
    (h : applyOp op db = Except.ok db') : db.nextId ≤ db'.nextId := by
  cases op with
  | create env net uid f =>
    rcases create_session_cases env net uid f db with hcase | ⟨v, hv, hcase⟩ <;>
      simp only [applyOp, hcase] at h
    · exact (Except.ok.inj h) ▸ Nat.le_refl _
    · exact (Except.ok.inj h) ▸ Nat.le_succ _
  | toggle uid sid =>
    simp only [applyOp] at h
    exact (Except.ok.inj h) ▸ Nat.le_refl _
  | delete uid sid =>
    simp only [applyOp] at h
    exact (Except.ok.inj h) ▸ Nat.le_refl _
  | jsonImport uid items =>
    simp only [applyOp] at h
    exact (Except.ok.inj h) ▸ json_import_nextId uid items db
  | csvImport uid items =>
    simp only [applyOp] at h
    exact (Except.ok.inj h) ▸ csv_import_nextId uid items db
  | sweep env net uid now =>
    simp only [applyOp, sweep_eq] at h
    exact (Except.ok.inj h) ▸ Nat.le_refl _

/-- One operation preserves "every row with this id has the flag set",
for an id below the sequence value. -/
theorem flag_latch_step (op : Op) (db db' : DB)
    (hop : applyOp op db = Except.ok db') (tid : Nat) (hbound : tid < db.nextId)
    (hP : ∀ u ∈ db.sessions, u.id = tid → u.reminderSent = 1) :
    ∀ u ∈ db'.sessions, u.id = tid → u.reminderSent = 1 := by
  cases op with
  | create env net uid f =>
    rcases create_session_cases env net uid f db with hcase | ⟨v, hv, hcase⟩
    · simp only [applyOp, hcase] at hop
      rw [← Except.ok.inj hop]
      exact hP
    · simp only [applyOp, hcase] at hop
      rw [← Except.ok.inj hop]
      intro u hu hid
      rcases List.mem_append.mp hu with h' | h'
      · exact hP u h' hid
      · rw [List.mem_singleton] at h'
        subst h'
        exact absurd hid (by simp only [createdRow]; omega)
  | toggle uid sid =>
    simp only [applyOp] at hop
    rw [← Except.ok.inj hop]
    intro u hu hid
    rcases List.mem_map.mp hu with ⟨w, hw, heq⟩
    have hfields := toggleRow_fields uid sid w
    rw [← heq, hfields.2]
    exact hP w hw (by rw [← hfields.1, heq, hid])
  | delete uid sid =>
    simp only [applyOp] at hop
    rw [← Except.ok.inj hop]
    intro u hu hid
    exact hP u (List.mem_of_mem_filter hu) hid
  | jsonImport uid items =>
    simp only [applyOp] at hop
    rw [← Except.ok.inj hop]
    intro u hu hid
    rcases json_import_mem uid items db u hu with h | h
    · exact hP u h hid
    · omega
  | csvImport uid items =>
    simp only [applyOp] at hop
    rw [← Except.ok.inj hop]
    intro u hu hid
    rcases csv_import_mem uid items db u hu with h | h
    · exact hP u h hid
    · omega
  | sweep env net uid now =>
    simp only [applyOp, sweep_eq] at hop
    rw [← Except.ok.inj hop]
    intro u hu hid
    by_cases hconf : telegramConfigured env = true
    · rw [if_pos hconf] at hu
      rcases (mem_mark_iff _ _ _).mp hu with ⟨w, hw, heq⟩
      by_cases hc : w.id ∈ dueIdsOf uid now db.sessions
      · rw [if_pos hc] at heq
        rw [← heq]
      · rw [if_neg hc] at heq
        rw [← heq] at hid ⊢
        exact hP w hw hid
    · rw [if_neg hconf] at hu
      exact hP u hu hid

/-- Along any run, a set reminder flag stays set on every surviving or
reinserted row with that id. -/
theorem flag_latch_run (ops : List Op) :
    ∀ db db', runOps ops db = Except.ok db' → ∀ tid, tid < db.nextId →
      (∀ u ∈ db.sessions, u.id = tid → u.reminderSent = 1) →
      ∀ u ∈ db'.sessions, u.id = tid → u.reminderSent = 1 := by
  induction ops with
  | nil =>
    intro db db' h tid _ hP
    rw [← Except.ok.inj h]
    exact hP
  | cons op rest ih =>
    intro db db' h tid hb hP
    cases hop : applyOp op db with
    | error e =>
      rw [runOps, hop] at h
      cases h
    | ok db1 =>
      rw [runOps, hop] at h
      exact ih db1 db' h tid (Nat.lt_of_lt_of_le hb (applyOp_nextId op db db1 hop))
        (flag_latch_step op db db1 hop tid hb hP)

/-- A false-to-true flip of the reminder flag across one operation can
only come from a sweep, and only for a row scheduled on the sweep's
date. -/
theorem flip_origin_step (op : Op) (db db' : DB) (hwf : dbWF db)
    (hop : applyOp op db = Except.ok db') (s s' : Sess)
    (hs : s ∈ db.sessions) (hs' : s' ∈ db'.sessions) (hid : s'.id = s.id)
    (h0 : s.reminderSent = 0) (h1 : s'.reminderSent = 1) :
    ∃ env net uid now, op = Op.sweep env net uid now ∧
      s.sessionDate = now.dateStr := by
  cases op with
  | create env net uid f =>
    rcases create_session_cases env net uid f db with hcase | ⟨v, hv, hcase⟩
    · simp only [applyOp, hcase] at hop
      rw [← Except.ok.inj hop] at hs'
      have hss : s' = s := nodup_id_unique hwf.1 hs' hs hid
      rw [hss, h0] at h1
      exact absurd h1 (by decide)
    · simp only [applyOp, hcase] at hop
      rw [← Except.ok.inj hop] at hs'
      rcases List.mem_append.mp hs' with h' | h'
      · have hss : s' = s := nodup_id_unique hwf.1 h' hs hid
        rw [hss, h0] at h1
        exact absurd h1 (by decide)
      · rw [List.mem_singleton] at h'
        subst h'
        simp [createdRow] at h1
  | toggle uid sid =>
    simp only [applyOp] at hop
    rw [← Except.ok.inj hop] at hs'
    rcases List.mem_map.mp hs' with ⟨w, hw, heq⟩
    have hfields := toggleRow_fields uid sid w
    have hwid : w.id = s.id := by rw [← hfields.1, heq, hid]
    have hws : w = s := nodup_id_unique hwf.1 hw hs hwid
    rw [← heq, hfields.2, hws, h0] at h1
    exact absurd h1 (by decide)
  | delete uid sid =>
    simp only [applyOp] at hop
    rw [← Except.ok.inj hop] at hs'
    have hss : s' = s := nodup_id_unique hwf.1 (List.mem_of_mem_filter hs') hs hid
    rw [hss, h0] at h1
    exact absurd h1 (by decide)
  | jsonImport uid items =>
    simp only [applyOp] at hop
    rw [← Except.ok.inj hop] at hs'
    rcases json_import_mem uid items db s' hs' with h | h
    · have hss : s' = s := nodup_id_unique hwf.1 h hs hid
      rw [hss, h0] at h1
      exact absurd h1 (by decide)
    · rw [h.2] at h1
      exact absurd h1 (by decide)
  | csvImport uid items =>
    simp only [applyOp] at hop
    rw [← Except.ok.inj hop] at hs'
    rcases csv_import_mem uid items db s' hs' with h | h
    · have hss : s' = s := nodup_id_unique hwf.1 h hs hid
      rw [hss, h0] at h1
      exact absurd h1 (by decide)
    · rw [h.2] at h1
      exact absurd h1 (by decide)
  | sweep env net uid now =>
    simp only [applyOp, sweep_eq] at hop
    rw [← Except.ok.inj hop] at hs'
    by_cases hconf : telegramConfigured env = true
    · rw [if_pos hconf] at hs'
      rcases (mem_mark_iff _ _ _).mp hs' with ⟨w, hw, heq⟩
      by_cases hc : w.id ∈ dueIdsOf uid now db.sessions
      · have hwid : w.id = s.id := by
          rw [← hid, ← heq, if_pos hc]
        have hws : w = s := nodup_id_unique hwf.1 hw hs hwid
        subst hws
        have hdate := ((mem_dueIds_iff hwf.1 hw uid now).mp hc).2.1
        exact ⟨env, net, uid, now, rfl, hdate⟩
      · rw [if_neg hc] at heq
        have hss : s' = s := nodup_id_unique hwf.1 (heq ▸ hw) hs hid
        rw [hss, h0] at h1
        exact absurd h1 (by decide)
    · rw [if_neg hconf] at hs'
      have hss : s' = s := nodup_id_unique hwf.1 hs' hs hid
      rw [hss, h0] at h1
      exact absurd h1 (by decide)

/-! ### Claim theorems -/

/-- C1: a candidate session of the sweep's user, scheduled today with a
well-formed stored date+time, is marked sent and gets a notification
dispatched if and only if `now <= scheduled_instant <= now + 30 minutes`,
both bounds inclusive (`t` is the scheduled time of day in microseconds,
on the same date as `now`). -/
theorem C1_due_window_iff (env : TelegramEnv) (net : String → Except String Unit)
    (uid : Nat) (now : Now) (store : List Sess) (s : Sess) (t : Nat) (out : SweepOut)
    (hn : (store.map Sess.id).Nodup)
    (hconf : telegramConfigured env = true)
    (hs : s ∈ store) (hu : s.userId = uid) (hd : s.sessionDate = now.dateStr)
    (hc : s.completed = 0) (hr : s.reminderSent = 0)
    (ht : strptimeDT s.sessionDate s.sessionTime = some t)
    (hrun : send_due_reminders env net uid now store = Except.ok out) :
    ({ s with reminderSent := 1 } ∈ out.store ∧ (s.id, reminderText s) ∈ out.sent)
      ↔ (now.usOfDay ≤ t ∧ t ≤ now.usOfDay + reminderWindowUs) := by
  rw [sweep_eq, if_pos hconf] at hrun
  have hout := (Except.ok.inj hrun).symm
  subst hout
  constructor
  · rintro ⟨hm, -⟩
    rcases (marked_mem_mark_iff hn hs _).mp hm with hin | h1
    · have hdue := ((mem_dueIds_iff hn hs uid now).mp hin).2.2.2.2
      simp only [isDue, ht, decide_eq_true_eq] at hdue
      exact hdue
    · omega
  · intro hw
    have hdue : isDue now s = true := by
      simp only [isDue, ht, decide_eq_true_eq]
      exact hw
    have hin : s.id ∈ dueIdsOf uid now store :=
      (mem_dueIds_iff hn hs uid now).mpr ⟨hu, hd, hc, hr, hdue⟩
    refine ⟨(marked_mem_mark_iff hn hs _).mpr (Or.inl hin), ?_⟩
    have hrow : s ∈ dueRowsOf uid now store :=
      (mem_dueRows_iff uid now store s).mpr ⟨hs, hu, hd, hc, hr, hdue⟩
    exact List.mem_map_of_mem _ hrow

/-- C3: the sweep's outcome does not depend on the network oracle (marking
happens whether dispatch succeeds or fails), the final table is the single
batched update applied to exactly the collected due ids, and a stored
row's flag ends up set exactly when it already was or the row was a due
candidate of this run. -/
theorem C3_mark_batched (env : TelegramEnv) (net net2 : String → Except String Unit)
    (uid : Nat) (now : Now) (store : List Sess) (out : SweepOut)
    (hn : (store.map Sess.id).Nodup)
    (hconf : telegramConfigured env = true)
    (hrun : send_due_reminders env net uid now store = Except.ok out) :
    send_due_reminders env net uid now store =
        send_due_reminders env net2 uid now store
      ∧ out.store = execute_many_mark_sent (dueIdsOf uid now store) store
      ∧ ∀ s ∈ store, ({ s with reminderSent := 1 } ∈ out.store ↔
          (s.reminderSent = 1 ∨ s.id ∈ dueIdsOf uid now store)) := by
  rw [sweep_eq, if_pos hconf] at hrun
  have hout := (Except.ok.inj hrun).symm
  subst hout
  refine ⟨by rw [sweep_eq, sweep_eq], rfl, ?_⟩
  intro s hsm
  rw [marked_mem_mark_iff hn hsm _]
  tauto

/-- C4: with the channel unconfigured, the sweep raises nothing, sends
nothing, and leaves the store untouched. -/
theorem C4_unconfigured_noop (env : TelegramEnv) (net : String → Except String Unit)
    (uid : Nat) (now : Now) (store : List Sess)
    (hconf : telegramConfigured env = false) :
    send_due_reminders env net uid now store = Except.ok ⟨store, []⟩ := by
  rw [sweep_eq, if_neg (by simp [hconf])]

/-- C5: the candidate query selects exactly the user's sessions scheduled
on `today` with `completed = 0` and `reminder_sent = 0`; in particular a
completed session is never a candidate. -/
theorem C5_candidate_set (uid : Nat) (today : String) (store : List Sess) :
    (∀ s, s ∈ dueCandidates uid today store ↔
        (s ∈ store ∧ s.userId = uid ∧ s.sessionDate = today ∧
          s.completed = 0 ∧ s.reminderSent = 0))
    ∧ ∀ s, s.completed = 1 → s ∉ dueCandidates uid today store := by
  constructor
  · intro s
    simp only [dueCandidates, List.mem_filter, Bool.and_eq_true, beq_iff_eq]
    tauto
  · intro s hcomp hmem
    simp only [dueCandidates, List.mem_filter, Bool.and_eq_true, beq_iff_eq] at hmem
    simp [hcomp] at hmem

/-- C6: a candidate whose stored date+time fails to parse is skipped
silently: the sweep still returns normally, the row is unchanged and not
marked, and no attempt is tagged with its id. -/
theorem C6_malformed_time_skipped (env : TelegramEnv)
    (net : String → Except String Unit) (uid : Nat) (now : Now)
    (store : List Sess) (s : Sess)
    (hn : (store.map Sess.id).Nodup)
    (hs : s ∈ store) (hu : s.userId = uid) (hd : s.sessionDate = now.dateStr)
    (hc : s.completed = 0) (hr : s.reminderSent = 0)
    (hbad : strptimeDT s.sessionDate s.sessionTime = none) :
    ∃ out, send_due_reminders env net uid now store = Except.ok out ∧
      s ∈ out.store ∧ { s with reminderSent := 1 } ∉ out.store ∧
      ∀ e ∈ out.sent, e.1 ≠ s.id := by
  have hdue : isDue now s = false := by simp [isDue, hbad]
  have hnid : s.id ∉ dueIdsOf uid now store := by
    intro hin
    have h := ((mem_dueIds_iff hn hs uid now).mp hin).2.2.2.2
    rw [hdue] at h
    cases h
  by_cases hconf : telegramConfigured env = true
  · refine ⟨_, by rw [sweep_eq, if_pos hconf], ?_, ?_, ?_⟩
    · exact unmarked_mem_mark hs hnid
    · intro hm
      rcases (marked_mem_mark_iff hn hs _).mp hm with h | h
      · exact hnid h
      · omega
    · intro e he heq
      have hmem : e.1 ∈ dueIdsOf uid now store := by
        rw [← dueEvents_map_fst uid now store]
        exact List.mem_map_of_mem Prod.fst he
      exact hnid (heq ▸ hmem)
  · refine ⟨⟨store, []⟩, by rw [sweep_eq, if_neg hconf], hs, ?_, by simp⟩
    intro hm
    have heq : ({ s with reminderSent := 1 } : Sess) = s :=
      nodup_id_unique hn hm hs rfl
    have h1 := congrArg Sess.reminderSent heq
    simp only at h1
    omega

/-- C8: the dispatch function returns normally on every input - for every
outcome of the network call it returns `Except.ok` (failures are caught
and discarded, missing configuration returns immediately with no
attempt), so no exception ever reaches the caller and there is no result
to inspect beyond the attempt instrumentation. -/
theorem C8_dispatch_total (env : TelegramEnv) (net : String → Except String Unit)
    (text : String) :
    send_telegram_message env net text =
      Except.ok (if telegramConfigured env then [text] else []) :=
  send_telegram_message_eq env net text

/-- C2: running the sweep twice in immediate succession (same injected
`now`, no store mutations in between) sends at most one notification in
total per session id, because the first run's marking excludes the
session from the second run's candidate query. -/
theorem C2_sweep_idempotent (env : TelegramEnv) (net : String → Except String Unit)
    (uid : Nat) (now : Now) (store : List Sess) (out1 out2 : SweepOut)
    (hn : (store.map Sess.id).Nodup)
    (h1 : send_due_reminders env net uid now store = Except.ok out1)
    (h2 : send_due_reminders env net uid now out1.store = Except.ok out2)
    (sid : Nat) :
    ((out1.sent ++ out2.sent).map Prod.fst).count sid ≤ 1 := by
  by_cases hconf : telegramConfigured env = true
  · rw [sweep_eq, if_pos hconf] at h1
    have e1 := Except.ok.inj h1
    have hst1 : out1.store =
        execute_many_mark_sent (dueIdsOf uid now store) store :=
      (congrArg SweepOut.store e1).symm
    have hsent1 : out1.sent = dueEventsOf uid now store :=
      (congrArg SweepOut.sent e1).symm
    rw [hst1, sweep_eq, if_pos hconf] at h2
    have e2 := Except.ok.inj h2
    have hsent2 : out2.sent = dueEventsOf uid now
        (execute_many_mark_sent (dueIdsOf uid now store) store) :=
      (congrArg SweepOut.sent e2).symm
    rw [hsent1, hsent2, List.map_append, List.count_append,
      dueEvents_map_fst, dueEvents_map_fst]
    by_cases hin : sid ∈ dueIdsOf uid now store
    · have hc1 : (dueIdsOf uid now store).count sid ≤ 1 :=
        List.nodup_iff_count_le_one.mp (dueIds_nodup hn uid now) sid
      have hc2 : (dueIdsOf uid now
          (execute_many_mark_sent (dueIdsOf uid now store) store)).count sid = 0 :=
        List.count_eq_zero.mpr (marked_not_due_again uid now now hin)
      omega
    · have hc1 : (dueIdsOf uid now store).count sid = 0 :=
        List.count_eq_zero.mpr hin
      have hn2 : ((execute_many_mark_sent (dueIdsOf uid now store)
          store).map Sess.id).Nodup := by
        rw [mark_map_id]
        exact hn
      have hc2 : (dueIdsOf uid now
          (execute_many_mark_sent (dueIdsOf uid now store) store)).count sid ≤ 1 :=
        List.nodup_iff_count_le_one.mp (dueIds_nodup hn2 uid now) sid
      omega
  · rw [sweep_eq, if_neg hconf] at h1
    have e1 := Except.ok.inj h1
    have hsent1 : out1.sent = [] := (congrArg SweepOut.sent e1).symm
    rw [sweep_eq, if_neg hconf] at h2
    have e2 := Except.ok.inj h2
    have hsent2 : out2.sent = [] := (congrArg SweepOut.sent e2).symm
    simp [hsent1, hsent2]

/-- C7: across any sequence of operations, a set `reminder_sent` flag is
never reset on any row carrying that id (so it flips false-to-true at
most once per id); and any single operation that flips a row's flag from
0 to 1 is a sweep, whose injected date equals the row's scheduled
date. -/
theorem C7_reminder_latch :
    (∀ ops db db', dbWF db → runOps ops db = Except.ok db' →
      ∀ s ∈ db.sessions, s.reminderSent = 1 →
        ∀ s' ∈ db'.sessions, s'.id = s.id → s'.reminderSent = 1)
    ∧ (∀ op db db', dbWF db → applyOp op db = Except.ok db' →
      ∀ s ∈ db.sessions, ∀ s' ∈ db'.sessions, s'.id = s.id →
        s.reminderSent = 0 → s'.reminderSent = 1 →
        ∃ env net uid now, op = Op.sweep env net uid now ∧
          s.sessionDate = now.dateStr) := by
  constructor
  · intro ops db db' hwf h s hs h1 s' hs' hid
    refine flag_latch_run ops db db' h s.id (hwf.2 s hs) ?_ s' hs' hid
    intro u hu huid
    have huu : u = s := nodup_id_unique hwf.1 hu hs huid
    exact huu ▸ h1
  · intro op db db' hwf h s hs s' hs' hid h0 h1
    exact flip_origin_step op db db' hwf h s s' hs hs' hid h0 h1

/-- C9 counterexample: a JSON import inserts a session with
`duration_min = 5`, so not every creation path enforces the minimum of
10. -/
theorem C9_import_below_min_cx :
    ∃ s ∈ (json_import 1 [itemSmall] ⟨[], 1⟩).sessions, s.durationMin < 10 := by
  decide

/-- C9 (amended): a session inserted by the form endpoint has
`duration_min = max(10, parsed) ≥ 10`; rows already in the store are
untouched.  (The import paths insert the supplied duration unchanged,
see the counterexample.) -/
theorem C9_form_min_duration (env : TelegramEnv) (net : String → Except String Unit)
    (uid : Nat) (f : CreateForm) (db db' : DB) (sent : List String)
    (h : create_session env net uid f db = Except.ok (db', sent)) :
    ∀ s ∈ db'.sessions, s ∈ db.sessions ∨ 10 ≤ s.durationMin := by
  rcases create_session_cases env net uid f db with hcase | ⟨v, hv, hcase⟩
  · rw [hcase] at h
    have e := Except.ok.inj h
    have hdb : db' = db := (congrArg Prod.fst e).symm
    intro s hs
    exact Or.inl (hdb ▸ hs)
  · rw [hcase] at h
    have e := Except.ok.inj h
    have hdb : db' = ⟨db.sessions ++ [createdRow uid f db.nextId v],
        db.nextId + 1⟩ := (congrArg Prod.fst e).symm
    intro s hs
    rw [hdb] at hs
    rcases List.mem_append.mp hs with h' | h'
    · exact Or.inl h'
    · right
      rw [List.mem_singleton] at h'
      subst h'
      exact le_max_left 10 v

/-- C10: with the channel configured, a form submission that passes
validation inserts exactly one new row (with `reminder_sent = 0`) and
dispatches exactly one notification, whose text is built from the title,
date, time, clamped duration and priority. -/
theorem C10_create_notifies (env : TelegramEnv) (net : String → Except String Unit)
    (uid : Nat) (f : CreateForm) (db : DB) (v : Int)
    (hconf : telegramConfigured env = true)
    (ht : f.title.isEmpty = false) (hd : f.session_date.isEmpty = false)
    (htm : f.session_time.isEmpty = false) (hdur : f.duration_min.isEmpty = false)
    (hv : pyInt f.duration_min = some v) :
    create_session env net uid f db = Except.ok
        (⟨db.sessions ++ [createdRow uid f db.nextId v], db.nextId + 1⟩,
         [createText f.title f.session_date f.session_time (max 10 v) f.priority])
      ∧ (createdRow uid f db.nextId v).reminderSent = 0
      ∧ [createText f.title f.session_date f.session_time
          (max 10 v) f.priority].length = 1 := by
  refine ⟨?_, rfl, rfl⟩
  rcases create_session_cases env net uid f db with hcase | ⟨w, hw, hcase⟩
  · exfalso
    unfold create_session at hcase
    rw [ht, hd, htm, hdur] at hcase
    simp only [Bool.or_self, Bool.if_false_left] at hcase
    rw [hv] at hcase
    simp only [send_telegram_message_eq, hconf, if_true] at hcase
    have e := Except.ok.inj hcase
    have := congrArg (fun p => p.1.sessions.length) e
    simp at this
  · rw [hw] at hv
    have hwv : w = v := Option.some.inj hv
    subst hwv
    rw [hcase, if_pos hconf]

/-! ### Witnesses: the claim theorems applied at concrete inputs -/

/-- C1 witness: sweeping 29 minutes before a noon session marks and
notifies it; sweeping 31 minutes before does neither. -/
theorem C1_due_window_iff_witness :
    (({ sessNoon with reminderSent := 1 } ∈ out1131.store ∧
        (sessNoon.id, reminderText sessNoon) ∈ out1131.sent) ↔
      (now1131.usOfDay ≤ 720 * usPerMinute ∧
        720 * usPerMinute ≤ now1131.usOfDay + reminderWindowUs))
    ∧ (({ sessNoon with reminderSent := 1 } ∈ out1129.store ∧
        (sessNoon.id, reminderText sessNoon) ∈ out1129.sent) ↔
      (now1129.usOfDay ≤ 720 * usPerMinute ∧
        720 * usPerMinute ≤ now1129.usOfDay + reminderWindowUs)) :=
  ⟨C1_due_window_iff envOn netOk 1 now1131 [sessNoon] sessNoon (720 * usPerMinute)
      out1131 (by decide) (by decide) (by decide) rfl rfl rfl rfl (by decide) rfl,
   C1_due_window_iff envOn netOk 1 now1129 [sessNoon] sessNoon (720 * usPerMinute)
      out1129 (by decide) (by decide) (by decide) rfl rfl rfl rfl (by decide) rfl⟩

/-- C2 witness: two back-to-back 11:31 sweeps on the same store send one
notification in total for session 1. -/
theorem C2_sweep_idempotent_witness :
    ((out1131.sent ++ out1131b.sent).map Prod.fst).count 1 ≤ 1 :=
  C2_sweep_idempotent envOn netOk 1 now1131 [sessNoon] out1131 out1131b
    (by decide) rfl rfl 1

/-- C3 witness: the 11:31 sweep gives the same result under a failing
network, its store is the one batched update, and the noon session's
marked copy is present exactly because it was due. -/
theorem C3_mark_batched_witness :
    send_due_reminders envOn netOk 1 now1131 [sessNoon] =
        send_due_reminders envOn netFail 1 now1131 [sessNoon]
      ∧ out1131.store =
        execute_many_mark_sent (dueIdsOf 1 now1131 [sessNoon]) [sessNoon]
      ∧ ({ sessNoon with reminderSent := 1 } ∈ out1131.store ↔
        (sessNoon.reminderSent = 1 ∨ sessNoon.id ∈ dueIdsOf 1 now1131 [sessNoon])) :=
  have h := C3_mark_batched envOn netOk netFail 1 now1131 [sessNoon] out1131
    (by decide) (by decide) rfl
  ⟨h.1, h.2.1, h.2.2 sessNoon (by decide)⟩

/-- C4 witness: with the bot token absent the sweep returns the store
unchanged and sends nothing. -/
theorem C4_unconfigured_noop_witness :
    send_due_reminders envOff netOk 1 now1131 [sessNoon] =
      Except.ok ⟨[sessNoon], []⟩ :=
  C4_unconfigured_noop envOff netOk 1 now1131 [sessNoon] (by decide)

/-- C5 witness: a completed session scheduled today is not selected. -/
theorem C5_candidate_set_witness :
    sessDone ∉ dueCandidates 1 "2026-10-12" [sessNoon, sessDone] :=
  (C5_candidate_set 1 "2026-10-12" [sessNoon, sessDone]).2 sessDone rfl

/-- C6 witness: a candidate stored with time "25:00" is skipped without
marking, dispatch or error. -/
theorem C6_malformed_time_skipped_witness :
    ∃ out, send_due_reminders envOn netOk 1 now1131 [sessBadTime] =
        Except.ok out ∧
      sessBadTime ∈ out.store ∧
      { sessBadTime with reminderSent := 1 } ∉ out.store ∧
      ∀ e ∈ out.sent, e.1 ≠ sessBadTime.id :=
  C6_malformed_time_skipped envOn netOk 1 now1131 [sessBadTime] sessBadTime
    (by decide) (by decide) rfl rfl rfl rfl (by decide)

/-- C7 witness: a toggle leaves a set flag set, and the 11:31 sweep is
the (only possible) source of the noon session's 0-to-1 flip, on its
scheduled date. -/
theorem C7_reminder_latch_witness :
    ({ sessFlagged with completed := 1 } : Sess).reminderSent = 1
    ∧ ∃ env net uid now, Op.sweep envOn netOk 1 now1131 =
        Op.sweep env net uid now ∧ sessNoon.sessionDate = now.dateStr :=
  ⟨C7_reminder_latch.1 [Op.toggle 1 4] ⟨[sessFlagged], 5⟩
      ⟨[{ sessFlagged with completed := 1 }], 5⟩ ⟨by decide, by decide⟩ rfl
      sessFlagged (by decide) rfl
      { sessFlagged with completed := 1 } (by decide) rfl,
   C7_reminder_latch.2 (Op.sweep envOn netOk 1 now1131) ⟨[sessNoon], 2⟩
      ⟨[{ sessNoon with reminderSent := 1 }], 2⟩ ⟨by decide, by decide⟩ rfl
      sessNoon (by decide)
      { sessNoon with reminderSent := 1 } (by decide) rfl rfl rfl⟩

/-- C9 witness (amended claim): the form submission with duration "5"
inserts a row whose duration was clamped to 10. -/
theorem C9_form_min_duration_witness :
    createdRow 1 formW 1 5 ∈ (⟨[], 1⟩ : DB).sessions ∨
      10 ≤ (createdRow 1 formW 1 5).durationMin :=
  C9_form_min_duration envOn netOk 1 formW ⟨[], 1⟩
    ⟨[createdRow 1 formW 1 5], 2⟩
    [createText formW.title formW.session_date formW.session_time
      (max 10 5) formW.priority]
    rfl (createdRow 1 formW 1 5) (by decide)

/-- C10 witness: the configured form submission inserts one row with the
flag clear and dispatches exactly one creation message. -/
theorem C10_create_notifies_witness :
    create_session envOn netOk 1 formW ⟨[], 1⟩ = Except.ok
        (⟨([] : List Sess) ++ [createdRow 1 formW 1 5], 1 + 1⟩,
         [createText formW.title formW.session_date formW.session_time
           (max 10 5) formW.priority])
      ∧ (createdRow 1 formW 1 5).reminderSent = 0
      ∧ [createText formW.title formW.session_date formW.session_time
          (max 10 5) formW.priority].length = 1 :=
  C10_create_notifies envOn netOk 1 formW ⟨[], 1⟩ 5 (by decide) (by decide)
    (by decide) (by decide) (by decide) (by decide)

/-- Sanity checks of the strptime model on concrete inputs. -/
theorem parse_model_checks :
    parseTime "12:30" = some 750 ∧ parseTime "9:05" = some 545 ∧
      parseTime "25:00" = none ∧ parseTime "12:60" = none ∧
      parseTime "" = none ∧
      parseDate "2026-10-12" = some (2026, 10, 12) ∧
      parseDate "2026-02-29" = none ∧
      parseDate "2024-02-29" = some (2024, 2, 29) ∧
      parseDate "2026-13-01" = none ∧
      pyInt " -45 " = some (-45) ∧ pyInt "4x5" = none := by
  repeat constructor <;> decide
